/-
Formal model of the NEXUS MVP agent messaging and coordination substrate:
the message envelope and agent dispatch loop of src/agents/base_agent.py,
the routing bus of src/messaging/message_bus.py, and the AgentMessage model
of src/models/__init__.py.  Python dictionaries are modelled as association
lists, uuid4 identifiers as values drawn from a threaded fresh counter,
datetimes as natural-number instants, and async handlers as functions
returning an explicit success-or-raise outcome.  Each claim of the
specification is then stated and settled as a theorem over this model.
-/
import Mathlib

namespace NexusModel

/-! ### Association-list helpers (model of Python dict / defaultdict) -/

/-- Dictionary lookup: first binding of the key, if any (Python `d.get(k)`). -/
def lookupA {α β : Type} [DecidableEq α] : List (α × β) → α → Option β
  | [], _ => none
  | p :: rest, k => if p.1 = k then some p.2 else lookupA rest k

/-- Dictionary lookup with a default (Python `d.get(k, d0)` and the read side
of `defaultdict`). -/
def lookupD {α β : Type} [DecidableEq α] (l : List (α × β)) (k : α) (d : β) : β :=
  (lookupA l k).getD d

/-- Dictionary write `d[k] = v`: replace the first binding of the key or insert
a new binding at the end. -/
def setA {α β : Type} [DecidableEq α] : List (α × β) → α → β → List (α × β)
  | [], k, v => [(k, v)]
  | p :: rest, k, v => if p.1 = k then (k, v) :: rest else p :: setA rest k v

/-- Dictionary delete `del d[k]`. -/
def removeA {α β : Type} [DecidableEq α] (l : List (α × β)) (k : α) : List (α × β) :=
  l.filter (fun p => decide (p.1 ≠ k))

/-- Python `list.remove(x)`: drop the first occurrence only. -/
def removeFirst {α : Type} [DecidableEq α] : List α → α → List α
  | [], _ => []
  | x :: xs, y => if x = y then xs else x :: removeFirst xs y

/-- Index of the first occurrence of an element in a list. -/
def firstIdx {α : Type} [DecidableEq α] : List α → α → Nat
  | [], _ => 0
  | x :: xs, y => if x = y then 0 else firstIdx xs y + 1

theorem lookupA_setA_self {α β : Type} [DecidableEq α] (l : List (α × β)) (k : α) (v : β) :
    lookupA (setA l k v) k = some v := by
  induction l with
  | nil => simp [setA, lookupA]
  | cons p rest ih =>
      by_cases h : p.1 = k
      · simp [setA, h, lookupA]
      · simp [setA, h, lookupA, ih]

theorem lookupA_setA_ne {α β : Type} [DecidableEq α] (l : List (α × β)) {k k2 : α} (v : β)
    (h : k ≠ k2) : lookupA (setA l k v) k2 = lookupA l k2 := by
  induction l with
  | nil => simp [setA, lookupA, h]
  | cons p rest ih =>
      by_cases hp : p.1 = k
      · have hp2 : p.1 ≠ k2 := by
          rw [hp]; exact h
        simp only [setA, if_pos hp, lookupA, if_neg h, if_neg hp2]
      · by_cases hq : p.1 = k2
        · simp only [setA, if_neg hp, lookupA, if_pos hq]
        · simp only [setA, if_neg hp, lookupA, if_neg hq, ih]

theorem lookupA_removeA_self {α β : Type} [DecidableEq α] (l : List (α × β)) (k : α) :
    lookupA (removeA l k) k = none := by
  induction l with
  | nil => simp [removeA, lookupA]
  | cons p rest ih =>
      by_cases h : p.1 = k
      · simpa [removeA, h, List.filter] using ih
      · simpa [removeA, h, List.filter, lookupA] using ih

theorem lookupA_map_snd {α β γ : Type} [DecidableEq α] (l : List (α × β)) (g : β → γ) (k : α) :
    lookupA (l.map (fun p => (p.1, g p.2))) k = (lookupA l k).map g := by
  induction l with
  | nil => simp [lookupA]
  | cons p rest ih =>
      by_cases h : p.1 = k
      · simp [lookupA, h]
      · simp [lookupA, h, ih]

theorem not_mem_removeFirst {α : Type} [DecidableEq α] {l : List α} {a : α}
    (h : l.Nodup) : a ∉ removeFirst l a := by
  induction l with
  | nil => simp [removeFirst]
  | cons x xs ih =>
      rcases List.nodup_cons.mp h with ⟨hx, hxs⟩
      by_cases hxa : x = a
      · subst hxa
        simpa [removeFirst] using hx
      · intro hmem
        simp only [removeFirst, if_neg hxa] at hmem
        rcases List.mem_cons.mp hmem with h1 | h2
        · exact hxa h1.symm
        · exact ih hxs h2

theorem firstIdx_inj {α : Type} [DecidableEq α] {l : List α} {a b : α}
    (ha : a ∈ l) (hb : b ∈ l) (h : firstIdx l a = firstIdx l b) : a = b := by
  induction l with
  | nil => cases ha
  | cons x xs ih =>
      by_cases hxa : x = a
      · by_cases hxb : x = b
        · rw [← hxa, ← hxb]
        · exfalso
          simp only [firstIdx, if_pos hxa, if_neg hxb] at h
          exact Nat.succ_ne_zero _ h.symm
      · by_cases hxb : x = b
        · exfalso
          simp only [firstIdx, if_neg hxa, if_pos hxb] at h
          exact Nat.succ_ne_zero _ h
        · simp only [firstIdx, if_neg hxa, if_neg hxb, Nat.add_right_cancel_iff] at h
          have ha2 : a ∈ xs := by
            rcases List.mem_cons.mp ha with h1 | h1
            · exact absurd h1.symm hxa
            · exact h1
          have hb2 : b ∈ xs := by
            rcases List.mem_cons.mp hb with h1 | h1
            · exact absurd h1.symm hxb
            · exact h1
          exact ih ha2 hb2 h

/-! ### MCP message envelope (src/agents/base_agent.py, class MCPMessage)

Identifiers produced by uuid4 are modelled as values of a fresh counter that
the caller threads in; datetimes are modelled as Nat instants, and the exact
isoformat round trip of a datetime is modelled as the identity on Nat. -/

/-- Payload values (Python dict values as used by the agents: strings,
numbers, nested records). -/
inductive JValue where
  | null : JValue
  | str : String → JValue
  | nat : Nat → JValue
  | dict : List (String × JValue) → JValue

/-- The flat record produced by MCPMessage.to_dict, with exactly the fields
id, timestamp, type, payload, source, target, correlation_id.  The timestamp
field holds the isoformat image of the datetime, modelled as the Nat instant
itself (datetime.fromisoformat inverts datetime.isoformat exactly). -/
structure MCPRecord where
  id : Nat
  timestamp : Nat
  type : String
  payload : List (String × JValue)
  source : String
  target : Option String
  correlation_id : Option Nat

/-- An MCP protocol message.  correlation_id is a plain Nat because the
constructor always fills it (from the argument or from the fresh id). -/
structure MCPMessage where
  id : Nat
  timestamp : Nat
  message_type : String
  payload : List (String × JValue)
  source : String
  target : Option String
  correlation_id : Nat

/-- MCPMessage.__init__: id := uuid4 (the fresh counter value), timestamp :=
utcnow (the current instant), and correlation_id := correlation_id or self.id. -/
def MCPMessage.make (freshId now : Nat) (mtype : String) (payload : List (String × JValue))
    (source : String) (target : Option String) (corr : Option Nat) : MCPMessage :=
  { id := freshId, timestamp := now, message_type := mtype, payload := payload,
    source := source, target := target, correlation_id := corr.getD freshId }

/-- MCPMessage.to_dict. -/
def MCPMessage.to_dict (m : MCPMessage) : MCPRecord :=
  { id := m.id, timestamp := m.timestamp, type := m.message_type, payload := m.payload,
    source := m.source, target := m.target, correlation_id := some m.correlation_id }

/-- MCPMessage.from_dict: builds a message through the constructor (consuming
a fresh id and the current instant), then overwrites id and timestamp from the
record. -/
def MCPMessage.from_dict (freshId now : Nat) (data : MCPRecord) : MCPMessage :=
  let msg := MCPMessage.make freshId now data.type data.payload data.source data.target
    data.correlation_id
  { msg with id := data.id, timestamp := data.timestamp }

/-- Embedding of a flat record as a payload value, as used when the error
reply carries message.to_dict() inside its payload. -/
def MCPRecord.toJ (r : MCPRecord) : JValue :=
  JValue.dict
    [("id", JValue.nat r.id),
     ("timestamp", JValue.nat r.timestamp),
     ("type", JValue.str r.type),
     ("payload", JValue.dict r.payload),
     ("source", JValue.str r.source),
     ("target", (match r.target with
       | none => JValue.null
       | some t => JValue.str t)),
     ("correlation_id", (match r.correlation_id with
       | none => JValue.null
       | some c => JValue.nat c))]

/-! ### Bus-side data model (src/models/__init__.py and message_bus.py) -/

/-- The MessageType enumeration of src/models/__init__.py. -/
inductive MessageType where
  | log_analysis
  | incident_detected
  | root_cause_request
  | remediation_request
  | analysis_result
  | agent_status
  | heartbeat
  | error
deriving DecidableEq, Repr

/-- The pydantic AgentMessage model.  Its __init__ fills only id (uuid4,
modelled by the fresh counter value the caller passes) and timestamp (utcnow)
when they are absent; correlation_id keeps its pydantic default of None when
not passed.  data is a string-keyed payload mapping, modelled as an
association list with string values (the values are opaque to the bus). -/
structure AgentMessage where
  id : Nat
  sender_id : String
  recipient_id : String
  message_type : MessageType
  data : List (String × String)
  timestamp : Nat
  correlation_id : Option Nat
deriving DecidableEq, Repr

/-- AgentMessage construction at the call sites of the bus: id is the fresh
counter value, every other field is the passed argument, and correlation_id
is none unless explicitly given. -/
def mkAgentMessage (freshId : Nat) (sender recipient : String) (mtype : MessageType)
    (data : List (String × String)) (timestamp : Nat) (corr : Option Nat) : AgentMessage :=
  { id := freshId, sender_id := sender, recipient_id := recipient, message_type := mtype,
    data := data, timestamp := timestamp, correlation_id := corr }

/-- The stats dictionary of MessageBus.__init__. -/
structure BusStats where
  messages_sent : Nat
  messages_delivered : Nat
  messages_failed : Nat
  messages_dropped : Nat
deriving DecidableEq, Repr

/-- State of the MessageBus of src/messaging/message_bus.py.  The agents map
stores BaseAgent object references that the bus never consults beyond key
membership, so only the keys are modelled.  The synchronous handler overrides
of message_handlers are async callables whose only effect visible to the bus
logic is whether the call raises; each is therefore modelled by the Bool
outcome of invoking it (true means it returns normally). -/
structure MessageBus where
  max_queue_size : Nat
  agents : List String
  message_queues : List (String × List AgentMessage)
  subscribers : List (MessageType × List String)
  message_handlers : List (String × List (MessageType × Bool))
  message_history : List AgentMessage
  message_ttl : Nat
  stats : BusStats
deriving DecidableEq, Repr

/-- MessageBus.__init__(max_queue_size, message_ttl_minutes); the ttl is kept
in the same time unit as message timestamps. -/
def MessageBus.init (max_queue_size message_ttl : Nat) : MessageBus :=
  { max_queue_size := max_queue_size, agents := [], message_queues := [],
    subscribers := [], message_handlers := [], message_history := [],
    message_ttl := message_ttl,
    stats := { messages_sent := 0, messages_delivered := 0,
               messages_failed := 0, messages_dropped := 0 } }

/-- Append to a deque created with maxlen: when the new length exceeds the
bound, elements are discarded from the left so that exactly maxlen remain. -/
def dequeAppend (maxlen : Nat) (q : List AgentMessage) (m : AgentMessage) : List AgentMessage :=
  let q2 := q ++ [m]
  if maxlen < q2.length then q2.drop (q2.length - maxlen) else q2

/-- MessageBus.register_agent: dict insert (re-registering an id keeps a
single key). -/
def MessageBus.register_agent (bus : MessageBus) (agent_id : String) : MessageBus :=
  { bus with agents := if agent_id ∈ bus.agents then bus.agents else bus.agents ++ [agent_id] }

/-- MessageBus.unregister_agent: deletes the agents entry and the mailbox
entry and removes the id from every subscriber list (list.remove drops the
first occurrence).  The message_handlers overrides are left untouched, as in
the source. -/
def MessageBus.unregister_agent (bus : MessageBus) (agent_id : String) : MessageBus :=
  if agent_id ∈ bus.agents then
    { bus with
      agents := bus.agents.filter (fun a => decide (a ≠ agent_id)),
      message_queues := removeA bus.message_queues agent_id,
      subscribers := bus.subscribers.map (fun p => (p.1, removeFirst p.2 agent_id)) }
  else bus

/-- MessageBus.subscribe: appends the id to the subscriber list of the kind
unless already present, and installs the optional synchronous handler
override. -/
def MessageBus.subscribe (bus : MessageBus) (agent_id : String) (mtype : MessageType)
    (handler : Option Bool) : MessageBus :=
  let subs := lookupD bus.subscribers mtype []
  let subs2 := if agent_id ∈ subs then subs else subs ++ [agent_id]
  let bus2 := { bus with subscribers := setA bus.subscribers mtype subs2 }
  match handler with
  | none => bus2
  | some h =>
      { bus2 with message_handlers :=
          (setA bus2.message_handlers agent_id
            (setA (lookupD bus2.message_handlers agent_id []) mtype h)) }

/-- MessageBus._send_to_recipient.  For an unregistered recipient the failed
counter is incremented and False returned, touching nothing else.  For a
registered recipient the message is appended to its bounded mailbox; then,
whether or not a synchronous handler is installed and whether or not invoking
it raises (such an exception is caught and only logged), the code increments
the delivered counter exactly once and returns True. -/
def MessageBus.send_to_recipient (bus : MessageBus) (message : AgentMessage) :
    MessageBus × Bool :=
  if message.recipient_id ∈ bus.agents then
    let q := lookupD bus.message_queues message.recipient_id []
    let bus2 := { bus with message_queues :=
      (setA bus.message_queues message.recipient_id
        (dequeAppend bus.max_queue_size q message)) }
    ({ bus2 with stats :=
        { bus2.stats with messages_delivered := bus2.stats.messages_delivered + 1 } }, true)
  else
    ({ bus with stats :=
        { bus.stats with messages_failed := bus.stats.messages_failed + 1 } }, false)

/-- The per-subscriber loop of MessageBus._broadcast_message: builds the
per-recipient copy (new uuid from the fresh counter, the data mapping passed
through, no correlation_id argument) and routes it, counting successes. -/
def broadcastGo (msg : AgentMessage) :
    MessageBus → Nat → List String → Nat → MessageBus × Nat × Nat
  | bus, fresh, [], successes => (bus, fresh, successes)
  | bus, fresh, aid :: rest, successes =>
      let copy := mkAgentMessage fresh msg.sender_id aid msg.message_type msg.data
        msg.timestamp none
      let out := bus.send_to_recipient copy
      broadcastGo msg out.1 (fresh + 1)
        rest (if out.2 then successes + 1 else successes)

/-- MessageBus._broadcast_message: no subscribers for the kind is a trivial
success; otherwise route a copy to every subscriber and succeed only if every
per-recipient send succeeded. -/
def MessageBus.broadcast_message (bus : MessageBus) (fresh : Nat) (message : AgentMessage) :
    MessageBus × Nat × Bool :=
  let subs := lookupD bus.subscribers message.message_type []
  if subs.isEmpty then (bus, fresh, true)
  else
    let out := broadcastGo message bus fresh subs 0
    (out.1, out.2.1, decide (out.2.2 = subs.length))

/-- MessageBus._cleanup_old_messages: drop history entries whose timestamp is
not strictly newer than now minus the ttl. -/
def MessageBus.cleanup_old_messages (bus : MessageBus) (now : Nat) : MessageBus :=
  { bus with message_history :=
      bus.message_history.filter (fun m => decide (now - bus.message_ttl < m.timestamp)) }

/-- MessageBus.send_message: increments the sent counter and appends to the
history first, purges expired history, then routes either as a broadcast (for
the sentinel recipients) or to the specific recipient.  In the model no
statement of the body can raise, so the except branch that would increment
the failed counter and return False is unreachable.  Returns the updated bus,
the advanced fresh counter, and the boolean outcome. -/
def MessageBus.send_message (bus : MessageBus) (fresh now : Nat) (message : AgentMessage) :
    MessageBus × Nat × Bool :=
  let bus1 := { bus with
    stats := { bus.stats with messages_sent := bus.stats.messages_sent + 1 },
    message_history := bus.message_history ++ [message] }
  let bus2 := bus1.cleanup_old_messages now
  if message.recipient_id = "broadcast" ∨ message.recipient_id = "*" then
    bus2.broadcast_message fresh message
  else
    let out := bus2.send_to_recipient message
    (out.1, fresh, out.2)

/-- MessageBus.publish_event: builds a broadcast-addressed AgentMessage
stamped with the current instant (consuming one fresh id) and sends it. -/
def MessageBus.publish_event (bus : MessageBus) (fresh now : Nat) (etype : MessageType)
    (sender : String) (data : List (String × String)) : MessageBus × Nat × Bool :=
  let msg := mkAgentMessage fresh sender "broadcast" etype data now none
  bus.send_message (fresh + 1) now msg

/-! ### BaseAgent mailbox and dispatch loop (src/agents/base_agent.py) -/

/-- Outcome of invoking an async message handler: it returns an optional
reply message, or raises an exception with the given text. -/
inductive HandlerResult where
  | ok : Option MCPMessage → HandlerResult
  | raises : String → HandlerResult

/-- State of a BaseAgent.  message_queue is the asyncio.Queue() created in
__init__, which has no maxsize bound, modelled as a plain FIFO list.
Handlers are modelled by their outcome function.  send_message of the MVP
only prints the outgoing message; the sent list records those outputs so that
the replies an agent emits are observable in the model. -/
structure BaseAgent where
  agent_id : String
  agent_type : String
  capabilities : List String
  status : String
  last_heartbeat : Nat
  message_handlers : List (String × (MCPMessage → HandlerResult))
  message_queue : List MCPMessage
  running : Bool
  tasks_processed : Nat
  errors : Nat
  sent : List MCPMessage

/-- BaseAgent.register_handler: one handler per kind, last registration wins. -/
def BaseAgent.register_handler (a : BaseAgent) (mtype : String)
    (h : MCPMessage → HandlerResult) : BaseAgent :=
  { a with message_handlers := setA a.message_handlers mtype h }

/-- BaseAgent.receive_message: await queue.put(message).  The queue is
unbounded, so the put completes at once (never blocks) and nothing is ever
evicted; the message is simply appended at the back. -/
def BaseAgent.receive_message (a : BaseAgent) (m : MCPMessage) : BaseAgent :=
  { a with message_queue := a.message_queue ++ [m] }

/-- BaseAgent._process_message.  No handler for the kind: the message is
logged and dropped.  A handler that returns a truthy reply: the reply is sent.
A handler that raises: the exception is caught here, and an error-kind reply
carrying the exception text and the serialized original message is sent to the
original sender with the original correlation id.  The caught exception does
not escape this function, so the caller never sees it. -/
def BaseAgent.process_message (a : BaseAgent) (freshId now : Nat) (message : MCPMessage) :
    BaseAgent :=
  match lookupA a.message_handlers message.message_type with
  | none => a
  | some handler =>
      match handler message with
      | HandlerResult.ok none => a
      | HandlerResult.ok (some response) => { a with sent := a.sent ++ [response] }
      | HandlerResult.raises e =>
          let error_response := MCPMessage.make freshId now "error"
            [("error", JValue.str e), ("original_message", MCPRecord.toJ message.to_dict)]
            a.agent_id (some message.source) (some message.correlation_id)
          { a with sent := a.sent ++ [error_response] }

/-- One iteration of BaseAgent._message_loop.  An empty queue is the
asyncio.TimeoutError path (continue).  Otherwise the front message is popped,
_process_message runs, and tasks_processed is incremented.  The increment
of the errors counter sits in the except branch of the loop, which is only
reached when a statement of the try block itself raises; _process_message
catches handler exceptions internally, so that branch is unreachable in the
model and errors is never changed by the loop. -/
def BaseAgent.loop_step (a : BaseAgent) (freshId now : Nat) : BaseAgent :=
  match a.message_queue with
  | [] => a
  | message :: rest =>
      let a1 := { a with message_queue := rest }
      let a2 := a1.process_message freshId now message
      { a2 with tasks_processed := a2.tasks_processed + 1 }

/-! ### Enhanced agent registry (src/messaging/message_bus.py) -/

/-- One registry entry of EnhancedAgentRegistry.  The instance back-reference
is a lookup convenience the registry logic never reads, so it is omitted. -/
structure RegistryEntry where
  agent_type : String
  capabilities : List String
  status : String
  last_heartbeat : Nat
  registered_at : Nat
  message_count : Nat
  error_count : Nat
deriving DecidableEq, Repr

/-- State of the EnhancedAgentRegistry together with its message bus. -/
structure Registry where
  bus : MessageBus
  agents : List (String × RegistryEntry)
  heartbeat_interval : Nat
  heartbeat_timeout : Nat
deriving DecidableEq, Repr

/-- EnhancedAgentRegistry.register_agent: stores a fresh entry with status
active and current timestamps, then registers the instance with the bus. -/
def Registry.register_agent (r : Registry) (aid atype : String) (caps : List String)
    (now : Nat) : Registry :=
  { r with
    agents := (setA r.agents aid
      { agent_type := atype, capabilities := caps, status := "active",
        last_heartbeat := now, registered_at := now,
        message_count := 0, error_count := 0 }),
    bus := r.bus.register_agent aid }

/-- EnhancedAgentRegistry.unregister_agent. -/
def Registry.unregister_agent (r : Registry) (aid : String) : Registry :=
  match lookupA r.agents aid with
  | none => r
  | some _ => { r with agents := removeA r.agents aid, bus := r.bus.unregister_agent aid }

/-- EnhancedAgentRegistry.update_heartbeat: refreshes last_heartbeat and
forces status back to active, when the id is registered. -/
def Registry.update_heartbeat (r : Registry) (aid : String) (now : Nat) : Registry :=
  match lookupA r.agents aid with
  | none => r
  | some e =>
      { r with agents := (setA r.agents aid
          { e with last_heartbeat := now, status := "active" }) }

/-- Whether the health sweep will flip this entry: heartbeat older than the
timeout and status not already inactive. -/
def staleActive (now timeout : Nat) (e : RegistryEntry) : Prop :=
  timeout < now - e.last_heartbeat ∧ e.status ≠ "inactive"

instance (now timeout : Nat) (e : RegistryEntry) : Decidable (staleActive now timeout e) :=
  inferInstanceAs (Decidable (_ ∧ _))

/-- Number of entries one sweep flips (each flip publishes one event). -/
def staleCount (now timeout : Nat) (l : List (String × RegistryEntry)) : Nat :=
  (l.filter (fun p => decide (staleActive now timeout p.2))).length

/-- The sweep of EnhancedAgentRegistry.check_agent_health: walks the entries
in order; a stale entry whose status is not already inactive is flipped to
inactive and one broadcast agent_status event is published through the bus
(carrying agent id, new status, and the last-heartbeat timestamp); every
other entry is left untouched and publishes nothing. -/
def healthSweep (now timeout : Nat) :
    MessageBus → Nat → List (String × RegistryEntry) →
      List (String × RegistryEntry) × MessageBus × Nat
  | bus, fresh, [] => ([], bus, fresh)
  | bus, fresh, (aid, info) :: rest =>
      if staleActive now timeout info then
        let out := bus.publish_event fresh now MessageType.agent_status "registry"
          [("agent_id", aid), ("status", "inactive"),
           ("last_heartbeat", toString info.last_heartbeat)]
        let rec2 := healthSweep now timeout out.1 out.2.1 rest
        ((aid, { info with status := "inactive" }) :: rec2.1, rec2.2)
      else
        let rec2 := healthSweep now timeout bus fresh rest
        ((aid, info) :: rec2.1, rec2.2)

/-- EnhancedAgentRegistry.check_agent_health at a given instant. -/
def Registry.check_agent_health (r : Registry) (fresh now : Nat) : Registry × Nat :=
  let out := healthSweep now r.heartbeat_timeout r.bus fresh r.agents
  ({ r with agents := out.1, bus := out.2.1 }, out.2.2)

/-- EnhancedAgentRegistry.__init__(message_bus): heartbeat interval 30s,
timeout 60s. -/
def Registry.init (bus : MessageBus) : Registry :=
  { bus := bus, agents := [], heartbeat_interval := 30, heartbeat_timeout := 60 }

/-- Iterated mailbox pushes: fold dequeAppend over a list of messages, the
shape taken by repeated sends into one bounded bus mailbox with no pops. -/
def pushAll (maxlen : Nat) (q : List AgentMessage) (ms : List AgentMessage) :
    List AgentMessage :=
  ms.foldl (dequeAppend maxlen) q

/-! ### Concrete fixtures used by witnesses and counterexamples -/

/-- A freshly started idle agent with no extra handlers. -/
def idleAgent : BaseAgent :=
  { agent_id := "agent-1", agent_type := "worker", capabilities := [], status := "online",
    last_heartbeat := 0, message_handlers := [], message_queue := [], running := true,
    tasks_processed := 0, errors := 0, sent := [] }

/-- A handler that always raises. -/
def hBoom : MCPMessage → HandlerResult := fun _ => HandlerResult.raises "fail"

/-- A message of the kind handled by hBoom. -/
def msgBoom : MCPMessage := MCPMessage.make 1 0 "boom" [] "src" (some "agent-1") none

/-- An unrelated follow-up message. -/
def msgNext : MCPMessage := MCPMessage.make 2 0 "other" [] "src2" none none

/-- Agent whose registered handler for kind boom raises, with a follow-up
message queued behind the failing one. -/
def agentC1 : BaseAgent :=
  { idleAgent with message_handlers := [("boom", hBoom)],
                   message_queue := [msgBoom, msgNext] }

/-- Bus with one registered agent subscribed to log_analysis. -/
def busC2 : MessageBus :=
  ((MessageBus.init 1000 60).register_agent "a").subscribe "a"
    MessageType.log_analysis none

/-- A broadcast message whose correlation id is set. -/
def msgC2 : AgentMessage :=
  mkAgentMessage 0 "ing" "broadcast" MessageType.log_analysis [("k", "v")] 3 (some 7)

/-- Bus with two registered agents both subscribed to log_analysis. -/
def busC3 : MessageBus :=
  (((((MessageBus.init 1000 60).register_agent "a").register_agent "b").subscribe "a"
    MessageType.log_analysis none).subscribe "b" MessageType.log_analysis none)

/-- A broadcast message for the two-subscriber bus. -/
def msgC3 : AgentMessage :=
  mkAgentMessage 0 "s" "broadcast" MessageType.log_analysis [] 3 none

/-- Bus configured with mailbox capacity 1. -/
def busC4 : MessageBus := MessageBus.init 1 60

/-- Two MCP messages pushed through receive_message in the C4 counterexample. -/
def mcpA : MCPMessage := MCPMessage.make 1 0 "x" [] "s" none none

/-- Second message of the C4 counterexample. -/
def mcpB : MCPMessage := MCPMessage.make 2 0 "y" [] "s" none none

/-- Short bus-level messages for the C4 witness. -/
def amsg (i : Nat) : AgentMessage := mkAgentMessage i "s" "r" MessageType.heartbeat [] 0 none

/-- Bus with one registered agent holding a synchronous handler override. -/
def busC6 : MessageBus :=
  ((MessageBus.init 1000 60).register_agent "a").subscribe "a"
    MessageType.heartbeat (some true)

/-- Registry with one agent registered at instant 0. -/
def regC7 : Registry :=
  (Registry.init (MessageBus.init 1000 60)).register_agent "a" "t" [] 0

/-- The entry regC7 stores for agent a. -/
def entC7 : RegistryEntry :=
  { agent_type := "t", capabilities := [], status := "active", last_heartbeat := 0,
    registered_at := 0, message_count := 0, error_count := 0 }

/-- regC7 after one health sweep at instant 100 (heartbeat 0 is 100 old,
beyond the 60 timeout, so agent a is flipped to inactive). -/
def regC7swept : Registry := (regC7.check_agent_health 10 100).1

/-- Bus with a registered agent a, used by the C9 witness. -/
def busW9 : MessageBus := (MessageBus.init 1000 60).register_agent "a"

/-- Message addressed to an id nobody registered. -/
def msgW9 : AgentMessage :=
  mkAgentMessage 0 "s" "nobody" MessageType.heartbeat [] 3 none

/-- Agent with one queued message and no handler for it, for the C10 witness. -/
def agentW10 : BaseAgent := { idleAgent with message_queue := [msgNext] }

/-! ### Supporting lemmas about the bus operations -/

theorem send_to_recipient_agents (bus : MessageBus) (m : AgentMessage) :
    (bus.send_to_recipient m).1.agents = bus.agents := by
  by_cases h : m.recipient_id ∈ bus.agents <;>
    simp [MessageBus.send_to_recipient, h]

theorem send_to_recipient_max (bus : MessageBus) (m : AgentMessage) :
    (bus.send_to_recipient m).1.max_queue_size = bus.max_queue_size := by
  by_cases h : m.recipient_id ∈ bus.agents <;>
    simp [MessageBus.send_to_recipient, h]

theorem send_to_recipient_sent (bus : MessageBus) (m : AgentMessage) :
    (bus.send_to_recipient m).1.stats.messages_sent = bus.stats.messages_sent := by
  by_cases h : m.recipient_id ∈ bus.agents <;>
    simp [MessageBus.send_to_recipient, h]

theorem send_to_recipient_dropped (bus : MessageBus) (m : AgentMessage) :
    (bus.send_to_recipient m).1.stats.messages_dropped = bus.stats.messages_dropped := by
  by_cases h : m.recipient_id ∈ bus.agents <;>
    simp [MessageBus.send_to_recipient, h]

theorem send_to_recipient_df (bus : MessageBus) (m : AgentMessage) :
    (bus.send_to_recipient m).1.stats.messages_delivered +
      (bus.send_to_recipient m).1.stats.messages_failed
      = bus.stats.messages_delivered + bus.stats.messages_failed + 1 := by
  by_cases h : m.recipient_id ∈ bus.agents <;>
    simp [MessageBus.send_to_recipient, h] <;> omega

theorem send_to_recipient_queue_self (bus : MessageBus) (m : AgentMessage) (rid : String)
    (hr : m.recipient_id = rid) (h : rid ∈ bus.agents) :
    lookupA (bus.send_to_recipient m).1.message_queues rid
      = some (dequeAppend bus.max_queue_size (lookupD bus.message_queues rid []) m) := by
  subst hr
  simp [MessageBus.send_to_recipient, h, lookupA_setA_self]

theorem send_to_recipient_queues_ne (bus : MessageBus) (m : AgentMessage) (rid aid : String)
    (hr : m.recipient_id = rid) (hne : aid ≠ rid) :
    lookupA (bus.send_to_recipient m).1.message_queues aid
      = lookupA bus.message_queues aid := by
  subst hr
  by_cases h : m.recipient_id ∈ bus.agents
  · simp [MessageBus.send_to_recipient, h,
      lookupA_setA_ne bus.message_queues _ (Ne.symm hne)]
  · simp [MessageBus.send_to_recipient, h]

theorem broadcastGo_agents (msg : AgentMessage) (subs : List String) :
    ∀ bus fresh s, (broadcastGo msg bus fresh subs s).1.agents = bus.agents := by
  induction subs with
  | nil => intro bus fresh s; simp [broadcastGo]
  | cons a0 rest ih =>
      intro bus fresh s
      simp only [broadcastGo]
      rw [ih]
      exact send_to_recipient_agents bus _

theorem broadcastGo_max (msg : AgentMessage) (subs : List String) :
    ∀ bus fresh s, (broadcastGo msg bus fresh subs s).1.max_queue_size = bus.max_queue_size := by
  induction subs with
  | nil => intro bus fresh s; simp [broadcastGo]
  | cons a0 rest ih =>
      intro bus fresh s
      simp only [broadcastGo]
      rw [ih]
      exact send_to_recipient_max bus _

theorem broadcastGo_sent (msg : AgentMessage) (subs : List String) :
    ∀ bus fresh s,
      (broadcastGo msg bus fresh subs s).1.stats.messages_sent = bus.stats.messages_sent := by
  induction subs with
  | nil => intro bus fresh s; simp [broadcastGo]
  | cons a0 rest ih =>
      intro bus fresh s
      simp only [broadcastGo]
      rw [ih]
      exact send_to_recipient_sent bus _

theorem broadcastGo_df (msg : AgentMessage) (subs : List String) :
    ∀ bus fresh s,
      (broadcastGo msg bus fresh subs s).1.stats.messages_delivered +
        (broadcastGo msg bus fresh subs s).1.stats.messages_failed
        = bus.stats.messages_delivered + bus.stats.messages_failed + subs.length := by
  induction subs with
  | nil => intro bus fresh s; simp [broadcastGo]
  | cons a0 rest ih =>
      intro bus fresh s
      simp only [broadcastGo, List.length_cons]
      rw [ih]
      have h := send_to_recipient_df bus
        (mkAgentMessage fresh msg.sender_id a0 msg.message_type msg.data msg.timestamp none)
      omega

theorem broadcastGo_queues_not_mem (msg : AgentMessage) (subs : List String) (aid : String)
    (h : aid ∉ subs) :
    ∀ bus fresh s,
      lookupA (broadcastGo msg bus fresh subs s).1.message_queues aid
        = lookupA bus.message_queues aid := by
  induction subs with
  | nil => intro bus fresh s; simp [broadcastGo]
  | cons a0 rest ih =>
      intro bus fresh s
      have hne : aid ≠ a0 := fun hE => h (by rw [hE]; exact List.mem_cons_self a0 rest)
      have hrest : aid ∉ rest := fun hE => h (List.mem_cons_of_mem a0 hE)
      simp only [broadcastGo]
      rw [ih hrest]
      exact send_to_recipient_queues_ne bus _ a0 aid rfl hne

theorem broadcastGo_delivers (msg : AgentMessage) (subs : List String) (aid : String) :
    ∀ bus fresh s, subs.Nodup → aid ∈ subs → aid ∈ bus.agents →
      lookupA (broadcastGo msg bus fresh subs s).1.message_queues aid
        = some (dequeAppend bus.max_queue_size (lookupD bus.message_queues aid [])
            (mkAgentMessage (fresh + firstIdx subs aid) msg.sender_id aid msg.message_type
              msg.data msg.timestamp none)) := by
  induction subs with
  | nil => intro bus fresh s _ hmem; cases hmem
  | cons a0 rest ih =>
      intro bus fresh s hnd hmem hreg
      rcases List.nodup_cons.mp hnd with ⟨h0, hrest⟩
      by_cases heq : a0 = aid
      · subst heq
        simp only [broadcastGo]
        rw [broadcastGo_queues_not_mem msg rest a0 h0]
        rw [send_to_recipient_queue_self bus _ a0 rfl hreg]
        simp [firstIdx]
      · have hmem2 : aid ∈ rest := by
          rcases List.mem_cons.mp hmem with h1 | h1
          · exact absurd h1.symm heq
          · exact h1
        have hreg2 : aid ∈ (bus.send_to_recipient
            (mkAgentMessage fresh msg.sender_id a0 msg.message_type msg.data
              msg.timestamp none)).1.agents := by
          rw [send_to_recipient_agents]; exact hreg
        simp only [broadcastGo]
        rw [ih _ _ _ hrest hmem2 hreg2]
        rw [send_to_recipient_max]
        have hq := send_to_recipient_queues_ne bus
          (mkAgentMessage fresh msg.sender_id a0 msg.message_type msg.data msg.timestamp none)
          a0 aid rfl (fun hE => heq hE.symm)
        have hidx : fresh + 1 + firstIdx rest aid = fresh + firstIdx (a0 :: rest) aid := by
          simp only [firstIdx, if_neg heq]
          omega
        rw [lookupD, lookupD, hq, hidx]

theorem broadcast_message_sent (bus : MessageBus) (fresh : Nat) (m : AgentMessage) :
    (bus.broadcast_message fresh m).1.stats.messages_sent = bus.stats.messages_sent := by
  simp only [MessageBus.broadcast_message]
  by_cases he : (lookupD bus.subscribers m.message_type []).isEmpty
  · simp [he]
  · simp [he, broadcastGo_sent]

theorem broadcast_message_df (bus : MessageBus) (fresh : Nat) (m : AgentMessage) :
    (bus.broadcast_message fresh m).1.stats.messages_delivered +
      (bus.broadcast_message fresh m).1.stats.messages_failed
      = bus.stats.messages_delivered + bus.stats.messages_failed +
          (lookupD bus.subscribers m.message_type []).length := by
  simp only [MessageBus.broadcast_message]
  by_cases he : (lookupD bus.subscribers m.message_type []).isEmpty
  · rw [List.isEmpty_iff] at he
    simp [he]
  · simp [he, broadcastGo_df]

theorem send_message_sent (bus : MessageBus) (fresh now : Nat) (m : AgentMessage) :
    (bus.send_message fresh now m).1.stats.messages_sent = bus.stats.messages_sent + 1 := by
  by_cases h : m.recipient_id = "broadcast" ∨ m.recipient_id = "*"
  · simp only [MessageBus.send_message, if_pos h]
    rw [broadcast_message_sent]
    simp [MessageBus.cleanup_old_messages]
  · simp only [MessageBus.send_message, if_neg h]
    rw [send_to_recipient_sent]
    simp [MessageBus.cleanup_old_messages]

theorem send_message_df_direct (bus : MessageBus) (fresh now : Nat) (m : AgentMessage)
    (h : ¬(m.recipient_id = "broadcast" ∨ m.recipient_id = "*")) :
    (bus.send_message fresh now m).1.stats.messages_delivered +
      (bus.send_message fresh now m).1.stats.messages_failed
      = bus.stats.messages_delivered + bus.stats.messages_failed + 1 := by
  simp only [MessageBus.send_message, if_neg h]
  rw [send_to_recipient_df]
  simp [MessageBus.cleanup_old_messages]

theorem send_message_df_broadcast (bus : MessageBus) (fresh now : Nat) (m : AgentMessage)
    (h : m.recipient_id = "broadcast" ∨ m.recipient_id = "*") :
    (bus.send_message fresh now m).1.stats.messages_delivered +
      (bus.send_message fresh now m).1.stats.messages_failed
      = bus.stats.messages_delivered + bus.stats.messages_failed +
          (lookupD bus.subscribers m.message_type []).length := by
  simp only [MessageBus.send_message, if_pos h]
  rw [broadcast_message_df]
  simp [MessageBus.cleanup_old_messages]

theorem dequeAppend_drop (maxlen : Nat) (q : List AgentMessage) (m : AgentMessage) :
    dequeAppend maxlen q m = (q ++ [m]).drop ((q ++ [m]).length - maxlen) := by
  simp only [dequeAppend]
  by_cases hlt : maxlen < (q ++ [m]).length
  · rw [if_pos hlt]
  · rw [if_neg hlt]
    have h0 : (q ++ [m]).length - maxlen = 0 := by
      simp only [List.length_append, List.length_cons, List.length_nil] at hlt ⊢
      omega
    rw [h0, List.drop_zero]

theorem dequeAppend_len (maxlen : Nat) (q : List AgentMessage) (m : AgentMessage)
    (h : q.length ≤ maxlen) : (dequeAppend maxlen q m).length ≤ maxlen := by
  simp only [dequeAppend]
  by_cases hlt : maxlen < (q ++ [m]).length
  · simp only [hlt, if_true, List.length_drop]
    omega
  · simp only [hlt, if_false]
    simp only [List.length_append, List.length_cons, List.length_nil] at hlt ⊢
    omega

theorem pushAll_drop (maxlen : Nat) (ms : List AgentMessage) :
    ∀ q, q.length ≤ maxlen →
      pushAll maxlen q ms = (q ++ ms).drop ((q ++ ms).length - maxlen) := by
  induction ms with
  | nil =>
      intro q h
      simp only [pushAll, List.foldl_nil, List.append_nil]
      have h0 : q.length - maxlen = 0 := by omega
      rw [h0, List.drop_zero]
  | cons m rest ih =>
      intro q h
      have step : pushAll maxlen q (m :: rest) = pushAll maxlen (dequeAppend maxlen q m) rest := by
        simp [pushAll, List.foldl_cons]
      rw [step, ih _ (dequeAppend_len maxlen q m h), dequeAppend_drop maxlen q m]
      have hk_le : (q ++ [m]).length - maxlen ≤ (q ++ [m]).length := Nat.sub_le _ _
      have hsplit : ∀ (l : List AgentMessage) (n : Nat), n ≤ l.length →
          l.drop n ++ rest = (l ++ rest).drop n := by
        intro l n hn
        rw [List.drop_append_eq_append_drop]
        have h0 : n - l.length = 0 := by omega
        rw [h0, List.drop_zero]
      rw [hsplit _ _ hk_le, List.drop_drop]
      have hassoc : (q ++ [m]) ++ rest = q ++ m :: rest := by
        simp
      rw [hassoc]
      congr 1
      simp only [List.length_drop, List.length_append, List.length_cons, List.length_nil]
      omega

theorem loop_step_tasks (a : BaseAgent) (f n : Nat) (m : MCPMessage) (rest : List MCPMessage)
    (hq : a.message_queue = m :: rest) :
    (a.loop_step f n).tasks_processed = a.tasks_processed + 1 ∧
    (a.loop_step f n).message_queue = rest ∧
    (a.loop_step f n).errors = a.errors ∧
    (a.loop_step f n).running = a.running := by
  simp only [BaseAgent.loop_step, hq]
  cases hmh : lookupA a.message_handlers m.message_type with
  | none => simp [BaseAgent.process_message, hmh]
  | some hdl =>
      cases hr : hdl m with
      | ok r => cases r <;> simp [BaseAgent.process_message, hmh, hr]
      | raises e => simp [BaseAgent.process_message, hmh, hr]

theorem publish_event_sent (bus : MessageBus) (fresh now : Nat) (et : MessageType)
    (s : String) (d : List (String × String)) :
    (bus.publish_event fresh now et s d).1.stats.messages_sent
      = bus.stats.messages_sent + 1 := by
  simp only [MessageBus.publish_event]
  exact send_message_sent bus (fresh + 1) now _

/-- The entry transformation one health sweep applies pointwise. -/
theorem healthSweep_agents (now timeout : Nat) (l : List (String × RegistryEntry)) :
    ∀ bus fresh,
      (healthSweep now timeout bus fresh l).1
        = l.map (fun p => (p.1,
            if staleActive now timeout p.2 then { p.2 with status := "inactive" } else p.2)) := by
  induction l with
  | nil => intro bus fresh; simp [healthSweep]
  | cons p rest ih =>
      intro bus fresh
      obtain ⟨aid, info⟩ := p
      by_cases hs : staleActive now timeout info
      · simp [healthSweep, hs, ih]
      · simp [healthSweep, hs, ih]

/-- One sweep sends exactly one event per flipped entry. -/
theorem healthSweep_sent (now timeout : Nat) (l : List (String × RegistryEntry)) :
    ∀ bus fresh,
      (healthSweep now timeout bus fresh l).2.1.stats.messages_sent
        = bus.stats.messages_sent + staleCount now timeout l := by
  induction l with
  | nil => intro bus fresh; simp [healthSweep, staleCount]
  | cons p rest ih =>
      intro bus fresh
      obtain ⟨aid, info⟩ := p
      by_cases hs : staleActive now timeout info
      · simp only [healthSweep, if_pos hs]
        rw [ih]
        rw [publish_event_sent]
        simp only [staleCount, List.filter_cons, decide_eq_true_eq, hs, if_pos hs,
          List.length_cons]
        simp [staleCount] at *
        omega
      · simp only [healthSweep, if_neg hs]
        rw [ih]
        simp only [staleCount, List.filter_cons]
        simp [hs]

/-- A sweep over entries none of which are stale-and-active changes nothing. -/
theorem healthSweep_noflip (now timeout : Nat) (l : List (String × RegistryEntry))
    (h : ∀ p ∈ l, ¬ staleActive now timeout p.2) :
    ∀ bus fresh, healthSweep now timeout bus fresh l = (l, bus, fresh) := by
  induction l with
  | nil => intro bus fresh; simp [healthSweep]
  | cons p rest ih =>
      intro bus fresh
      obtain ⟨aid, info⟩ := p
      have h0 : ¬ staleActive now timeout info := h (aid, info) (List.mem_cons_self _ _)
      have hrest : ∀ p ∈ rest, ¬ staleActive now timeout p.2 :=
        fun p hp => h p (List.mem_cons_of_mem _ hp)
      simp [healthSweep, h0, ih hrest]

/-- After a sweep at some instant, no entry is stale-and-active at that same
instant: flipped entries are inactive, the rest were not stale. -/
theorem swept_noflip (now timeout : Nat) (l : List (String × RegistryEntry)) :
    ∀ p ∈ l.map (fun p => (p.1,
        if staleActive now timeout p.2 then { p.2 with status := "inactive" } else p.2)),
      ¬ staleActive now timeout p.2 := by
  intro p hp
  rcases List.mem_map.mp hp with ⟨q, hq, rfl⟩
  by_cases hs : staleActive now timeout q.2
  · simp only [if_pos hs]
    intro hcontra
    exact hcontra.2 rfl
  · simp only [if_neg hs]
    exact hs

/-! ### Claim theorems -/

/-- C8 (confirmed): for every constructed message m, deserializing its
serialized record, MCPMessage.from_dict (m.to_dict), reconstructs a message
with identical id, kind, payload, sender, recipient, correlation id, and
timestamp; the record is the flat MCPRecord with fields id, timestamp, type,
payload, source, target, correlation_id, its timestamp an exact image of the
datetime (ISO-8601 round trip), no matter which fresh id and instant the
constructor inside from_dict consumes. -/
theorem C8_roundtrip (m : MCPMessage) (freshId now : Nat) :
    MCPMessage.from_dict freshId now m.to_dict = m := by
  cases m
  rfl

/-- C5 counterexample: an AgentMessage (the message model the bus routes)
constructed without an explicit correlation id keeps the pydantic default
None, which differs from its own identifier, so the claim read over every
message class of the program is false. -/
theorem C5_counterexample :
    (mkAgentMessage 5 "s" "r" MessageType.heartbeat [] 0 none).correlation_id
      ≠ some (mkAgentMessage 5 "s" "r" MessageType.heartbeat [] 0 none).id := by
  decide

/-- C5 (corrected): for the MCP envelope, a message constructed without an
explicit correlation id gets its own identifier as correlation id, and a
reply constructed with the correlation id of such a message carries the
original request id; the bus-side AgentMessage, however, leaves an unset
correlation id as None rather than defaulting it to the message id. -/
theorem C5_correlation (f n : Nat) (t : String) (p : List (String × JValue)) (s : String)
    (tg : Option String) (f2 n2 : Nat) (t2 : String) (p2 : List (String × JValue))
    (s2 : String) (tg2 : Option String) (sender recipient : String) (mt : MessageType)
    (d : List (String × String)) (ts fr : Nat) :
    (MCPMessage.make f n t p s tg none).correlation_id
        = (MCPMessage.make f n t p s tg none).id ∧
    (MCPMessage.make f2 n2 t2 p2 s2 tg2
        (some (MCPMessage.make f n t p s tg none).correlation_id)).correlation_id
        = (MCPMessage.make f n t p s tg none).id ∧
    (mkAgentMessage fr sender recipient mt d ts none).correlation_id = none :=
  ⟨rfl, rfl, rfl⟩

/-- C10 (confirmed): every message popped by the message loop increments
tasks_processed by exactly 1, with no assumption on whether a handler is
registered for its kind, whether it raises, or whether it returns a reply:
tasks_processed counts dispatch attempts. -/
theorem C10_tasks_processed (a : BaseAgent) (f n : Nat) (m : MCPMessage)
    (rest : List MCPMessage) (hq : a.message_queue = m :: rest) :
    (a.loop_step f n).tasks_processed = a.tasks_processed + 1 :=
  (loop_step_tasks a f n m rest hq).1

/-- C10 witness: a concrete agent with one queued message of a kind that has
no registered handler still counts the dispatch. -/
theorem C10_witness :
    (agentW10.loop_step 5 6).tasks_processed = agentW10.tasks_processed + 1 :=
  C10_tasks_processed agentW10 5 6 msgNext [] rfl

/-- C1 counterexample: a concrete agent whose registered handler for the
queued message raises does send the one error reply, but its error counter
stays at its old value instead of increasing by exactly 1: the increment
sits in the except branch of the message loop, which the internally caught
handler exception never reaches. -/
theorem C1_counterexample :
    lookupA agentC1.message_handlers msgBoom.message_type = some hBoom ∧
    hBoom msgBoom = HandlerResult.raises "fail" ∧
    (agentC1.loop_step 100 50).sent.length = agentC1.sent.length + 1 ∧
    ¬ (agentC1.loop_step 100 50).errors = agentC1.errors + 1 := by
  refine ⟨rfl, rfl, rfl, ?_⟩
  decide

/-- C1 (corrected): when the registered handler of a popped message raises,
the loop catches the failure and sends an error-kind reply to the original
sender whose payload carries the exception text and the serialized original
message, with the original correlation id; the loop stays alive (running flag
untouched) and processes the subsequent message, and tasks_processed still
advances — but the agent error counter is NOT incremented: it only counts
failures of the loop body outside the handler try block. -/
theorem C1_handler_failure (a : BaseAgent) (m : MCPMessage) (rest : List MCPMessage)
    (hdl : MCPMessage → HandlerResult) (e : String) (f n f2 n2 : Nat)
    (hq : a.message_queue = m :: rest)
    (hh : lookupA a.message_handlers m.message_type = some hdl)
    (hr : hdl m = HandlerResult.raises e) :
    (a.loop_step f n).errors = a.errors ∧
    (a.loop_step f n).tasks_processed = a.tasks_processed + 1 ∧
    (a.loop_step f n).sent = a.sent ++ [MCPMessage.make f n "error"
        [("error", JValue.str e), ("original_message", MCPRecord.toJ m.to_dict)]
        a.agent_id (some m.source) (some m.correlation_id)] ∧
    (a.loop_step f n).running = a.running ∧
    (a.loop_step f n).message_queue = rest ∧
    (∀ m2 rest2, rest = m2 :: rest2 →
      ((a.loop_step f n).loop_step f2 n2).tasks_processed = a.tasks_processed + 2) := by
  have hstep : a.loop_step f n
      = { a with message_queue := rest,
                 sent := a.sent ++ [MCPMessage.make f n "error"
                   [("error", JValue.str e), ("original_message", MCPRecord.toJ m.to_dict)]
                   a.agent_id (some m.source) (some m.correlation_id)],
                 tasks_processed := a.tasks_processed + 1 } := by
    simp only [BaseAgent.loop_step, hq, BaseAgent.process_message, hh, hr]
  refine ⟨by rw [hstep], by rw [hstep], by rw [hstep], by rw [hstep], by rw [hstep], ?_⟩
  intro m2 rest2 hrest
  have h1 : (a.loop_step f n).message_queue = m2 :: rest2 := by
    rw [hstep, hrest]
  have h2 := (loop_step_tasks (a.loop_step f n) f2 n2 m2 rest2 h1).1
  rw [h2, hstep]

/-- C1 witness: the corrected statement at the concrete raising-handler
agent. -/
theorem C1_witness :
    (agentC1.loop_step 100 50).errors = agentC1.errors ∧
    (agentC1.loop_step 100 50).tasks_processed = agentC1.tasks_processed + 1 ∧
    (agentC1.loop_step 100 50).sent = agentC1.sent ++ [MCPMessage.make 100 50 "error"
        [("error", JValue.str "fail"), ("original_message", MCPRecord.toJ msgBoom.to_dict)]
        agentC1.agent_id (some msgBoom.source) (some msgBoom.correlation_id)] ∧
    (agentC1.loop_step 100 50).running = agentC1.running ∧
    (agentC1.loop_step 100 50).message_queue = [msgNext] ∧
    (∀ m2 rest2, [msgNext] = m2 :: rest2 →
      ((agentC1.loop_step 100 50).loop_step 101 51).tasks_processed
        = agentC1.tasks_processed + 2) :=
  C1_handler_failure agentC1 msgBoom [msgNext] hBoom "fail" 100 50 101 51 rfl rfl rfl

/-- C4 counterexample: on a bus configured with mailbox capacity 1, pushing
2 messages into an agent through receive_message retains both — the agent
queue created in BaseAgent.__init__ is an unbounded asyncio.Queue and never
evicts, so the claim that only the most recent capacity messages survive is
false for receive_message. -/
theorem C4_counterexample :
    busC4.max_queue_size = 1 ∧
    ((idleAgent.receive_message mcpA).receive_message mcpB).message_queue.length = 2 :=
  ⟨rfl, rfl⟩

/-- C4 (corrected): receive_message never blocks and simply appends — its
queue is unbounded and retains every message; the bounded drop-oldest
behaviour belongs to the per-recipient deque mailboxes of the bus, where
pushing at least capacity-many messages into an initially empty mailbox
retains exactly the most recent capacity messages (oldest evicted first),
and each registered-recipient send performs exactly such a bounded append. -/
theorem C4_mailbox_bound (a : BaseAgent) (m : MCPMessage) (cap : Nat)
    (ms : List AgentMessage) (h : cap ≤ ms.length) :
    (a.receive_message m).message_queue = a.message_queue ++ [m] ∧
    pushAll cap [] ms = ms.drop (ms.length - cap) ∧
    (pushAll cap [] ms).length = cap ∧
    (∀ (bus : MessageBus) (msg : AgentMessage), msg.recipient_id ∈ bus.agents →
       lookupA ((bus.send_to_recipient msg).1.message_queues) msg.recipient_id
         = some (dequeAppend bus.max_queue_size
             (lookupD bus.message_queues msg.recipient_id []) msg)) := by
  have hmain : pushAll cap [] ms = ms.drop (ms.length - cap) := by
    have := pushAll_drop cap ms [] (by simp)
    simpa using this
  refine ⟨rfl, hmain, ?_, ?_⟩
  · rw [hmain]
    simp only [List.length_drop]
    omega
  · intro bus msg hreg
    exact send_to_recipient_queue_self bus msg _ rfl hreg

/-- C4 witness: capacity 2, three pushes, the two most recent messages
survive. -/
theorem C4_witness :
    (idleAgent.receive_message mcpA).message_queue = idleAgent.message_queue ++ [mcpA] ∧
    pushAll 2 [] [amsg 1, amsg 2, amsg 3]
      = [amsg 1, amsg 2, amsg 3].drop ([amsg 1, amsg 2, amsg 3].length - 2) ∧
    (pushAll 2 [] [amsg 1, amsg 2, amsg 3]).length = 2 ∧
    (∀ (bus : MessageBus) (msg : AgentMessage), msg.recipient_id ∈ bus.agents →
       lookupA ((bus.send_to_recipient msg).1.message_queues) msg.recipient_id
         = some (dequeAppend bus.max_queue_size
             (lookupD bus.message_queues msg.recipient_id []) msg)) :=
  C4_mailbox_bound idleAgent mcpA 2 [amsg 1, amsg 2, amsg 3] (by decide)

/-- C9 (confirmed): a send addressed to a specific unregistered recipient
returns False without raising, increments sent and failed by exactly 1,
leaves delivered and dropped unchanged, and mutates no mailbox. -/
theorem C9_unknown_recipient (bus : MessageBus) (fresh now : Nat) (msg : AgentMessage)
    (h1 : msg.recipient_id ≠ "broadcast") (h2 : msg.recipient_id ≠ "*")
    (h3 : msg.recipient_id ∉ bus.agents) :
    (bus.send_message fresh now msg).2.2 = false ∧
    (bus.send_message fresh now msg).1.stats.messages_sent = bus.stats.messages_sent + 1 ∧
    (bus.send_message fresh now msg).1.stats.messages_failed
      = bus.stats.messages_failed + 1 ∧
    (bus.send_message fresh now msg).1.stats.messages_delivered
      = bus.stats.messages_delivered ∧
    (bus.send_message fresh now msg).1.stats.messages_dropped
      = bus.stats.messages_dropped ∧
    (bus.send_message fresh now msg).1.message_queues = bus.message_queues := by
  have hcond : ¬(msg.recipient_id = "broadcast" ∨ msg.recipient_id = "*") := by
    rintro (h | h)
    exacts [h1 h, h2 h]
  simp only [MessageBus.send_message, if_neg hcond, MessageBus.cleanup_old_messages,
    MessageBus.send_to_recipient]
  simp [h3]

/-- C9 witness: concrete send to the unregistered id nobody. -/
theorem C9_witness :
    (busW9.send_message 0 3 msgW9).2.2 = false ∧
    (busW9.send_message 0 3 msgW9).1.stats.messages_sent = busW9.stats.messages_sent + 1 ∧
    (busW9.send_message 0 3 msgW9).1.stats.messages_failed
      = busW9.stats.messages_failed + 1 ∧
    (busW9.send_message 0 3 msgW9).1.stats.messages_delivered
      = busW9.stats.messages_delivered ∧
    (busW9.send_message 0 3 msgW9).1.stats.messages_dropped
      = busW9.stats.messages_dropped ∧
    (busW9.send_message 0 3 msgW9).1.message_queues = busW9.message_queues :=
  C9_unknown_recipient busW9 0 3 msgW9 (by decide) (by decide) (by decide)

/-- C3 counterexample: a broadcast on a bus with two registered subscribers
increments sent by 1 but delivered by 2, so after the very first send the
alleged invariant sent at least delivered plus failed is already violated. -/
theorem C3_counterexample :
    (busC3.send_message 1 10 msgC3).1.stats.messages_sent = 1 ∧
    (busC3.send_message 1 10 msgC3).1.stats.messages_delivered = 2 ∧
    (busC3.send_message 1 10 msgC3).1.stats.messages_failed = 0 ∧
    ¬ ((busC3.send_message 1 10 msgC3).1.stats.messages_delivered +
        (busC3.send_message 1 10 msgC3).1.stats.messages_failed ≤
        (busC3.send_message 1 10 msgC3).1.stats.messages_sent) := by
  decide

/-- C3 (corrected): every send increments sent by exactly 1 before
delivery; a direct send then increments delivered plus failed by exactly 1,
while a broadcast increments delivered plus failed by the number of
subscribers of the kind — zero for a subscriber-less broadcast (leaving sent
ahead) but two or more for a multi-subscriber broadcast (pushing delivered
plus failed ahead of sent), so sent is not an upper bound of delivered plus
failed. -/
theorem C3_counters (bus : MessageBus) (fresh now : Nat) (msg : AgentMessage) :
    (bus.send_message fresh now msg).1.stats.messages_sent
      = bus.stats.messages_sent + 1 ∧
    (¬(msg.recipient_id = "broadcast" ∨ msg.recipient_id = "*") →
      (bus.send_message fresh now msg).1.stats.messages_delivered +
        (bus.send_message fresh now msg).1.stats.messages_failed
        = bus.stats.messages_delivered + bus.stats.messages_failed + 1) ∧
    ((msg.recipient_id = "broadcast" ∨ msg.recipient_id = "*") →
      (bus.send_message fresh now msg).1.stats.messages_delivered +
        (bus.send_message fresh now msg).1.stats.messages_failed
        = bus.stats.messages_delivered + bus.stats.messages_failed +
            (lookupD bus.subscribers msg.message_type []).length) :=
  ⟨send_message_sent bus fresh now msg,
   fun h => send_message_df_direct bus fresh now msg h,
   fun h => send_message_df_broadcast bus fresh now msg h⟩

/-- C3 witness: the corrected counter accounting at the concrete
two-subscriber bus. -/
theorem C3_witness :
    (busC3.send_message 1 10 msgC3).1.stats.messages_sent
      = busC3.stats.messages_sent + 1 ∧
    (¬(msgC3.recipient_id = "broadcast" ∨ msgC3.recipient_id = "*") →
      (busC3.send_message 1 10 msgC3).1.stats.messages_delivered +
        (busC3.send_message 1 10 msgC3).1.stats.messages_failed
        = busC3.stats.messages_delivered + busC3.stats.messages_failed + 1) ∧
    ((msgC3.recipient_id = "broadcast" ∨ msgC3.recipient_id = "*") →
      (busC3.send_message 1 10 msgC3).1.stats.messages_delivered +
        (busC3.send_message 1 10 msgC3).1.stats.messages_failed
        = busC3.stats.messages_delivered + busC3.stats.messages_failed +
            (lookupD busC3.subscribers msgC3.message_type []).length) :=
  C3_counters busC3 1 10 msgC3

theorem broadcast_message_delivers (bus : MessageBus) (msg : AgentMessage) (fresh : Nat)
    (aid : String) (subs : List String)
    (hsubs : lookupD bus.subscribers msg.message_type [] = subs)
    (hnd : subs.Nodup) (hmem : aid ∈ subs) (hreg : aid ∈ bus.agents) :
    lookupA (bus.broadcast_message fresh msg).1.message_queues aid
      = some (dequeAppend bus.max_queue_size (lookupD bus.message_queues aid [])
          (mkAgentMessage (fresh + firstIdx subs aid) msg.sender_id aid msg.message_type
            msg.data msg.timestamp none)) := by
  have hne : subs ≠ [] := List.ne_nil_of_mem hmem
  have hE : ¬ (subs.isEmpty = true) := by
    rw [List.isEmpty_iff]
    exact hne
  simp only [MessageBus.broadcast_message, hsubs]
  rw [if_neg hE]
  exact broadcastGo_delivers msg subs aid bus fresh 0 hnd hmem hreg

/-- C2 counterexample: a broadcast of a message whose correlation id is set
delivers to the registered subscriber a copy whose correlation id is None —
the per-recipient copy constructor never passes the correlation id through,
so the copy does not share the correlation id of the original. -/
theorem C2_counterexample :
    msgC2.correlation_id = some 7 ∧
    (lookupA (busC2.send_message 1 10 msgC2).1.message_queues "a").map
        (fun q => q.map AgentMessage.correlation_id) = some [none] := by
  decide

/-- C2 (corrected): a broadcast with subscribers to the kind of the message
appends to the mailbox of each registered subscriber a per-recipient copy
that carries a new identifier (distinct from the original id when the fresh
counter is ahead of it, and pairwise distinct across subscribers), the same
kind, sender, payload, and timestamp as the original, and the recipient set
to that subscriber — but its correlation id is None regardless of the
original, not the original correlation id. -/
theorem C2_broadcast_copy (bus : MessageBus) (msg : AgentMessage) (fresh now : Nat)
    (aid : String) (subs : List String)
    (hrec : msg.recipient_id = "broadcast" ∨ msg.recipient_id = "*")
    (hsubs : lookupD bus.subscribers msg.message_type [] = subs)
    (hnd : subs.Nodup) (hmem : aid ∈ subs) (hreg : aid ∈ bus.agents) :
    lookupA (bus.send_message fresh now msg).1.message_queues aid
      = some (dequeAppend bus.max_queue_size (lookupD bus.message_queues aid [])
          (mkAgentMessage (fresh + firstIdx subs aid) msg.sender_id aid msg.message_type
            msg.data msg.timestamp none)) ∧
    (mkAgentMessage (fresh + firstIdx subs aid) msg.sender_id aid msg.message_type
        msg.data msg.timestamp none).correlation_id = none ∧
    (msg.id < fresh → (mkAgentMessage (fresh + firstIdx subs aid) msg.sender_id aid
        msg.message_type msg.data msg.timestamp none).id ≠ msg.id) ∧
    (∀ aid2, aid2 ∈ subs → aid2 ≠ aid →
      fresh + firstIdx subs aid ≠ fresh + firstIdx subs aid2) := by
  refine ⟨?_, rfl, ?_, ?_⟩
  · have hstep : (bus.send_message fresh now msg).1
        = (MessageBus.broadcast_message
            (MessageBus.cleanup_old_messages
              { bus with
                stats := { bus.stats with messages_sent := bus.stats.messages_sent + 1 },
                message_history := bus.message_history ++ [msg] } now)
            fresh msg).1 := by
      simp only [MessageBus.send_message, if_pos hrec]
    rw [hstep]
    exact broadcast_message_delivers _ msg fresh aid subs hsubs hnd hmem hreg
  · intro hlt
    simp only [mkAgentMessage]
    omega
  · intro aid2 h2 hne2 hEq
    exact hne2 ((firstIdx_inj hmem h2 (Nat.add_left_cancel hEq)).symm)

/-- C2 witness: the corrected statement at the concrete one-subscriber bus. -/
theorem C2_witness :
    lookupA (busC2.send_message 1 10 msgC2).1.message_queues "a"
      = some (dequeAppend busC2.max_queue_size (lookupD busC2.message_queues "a" [])
          (mkAgentMessage (1 + firstIdx ["a"] "a") msgC2.sender_id "a" msgC2.message_type
            msgC2.data msgC2.timestamp none)) ∧
    (mkAgentMessage (1 + firstIdx ["a"] "a") msgC2.sender_id "a" msgC2.message_type
        msgC2.data msgC2.timestamp none).correlation_id = none ∧
    (msgC2.id < 1 → (mkAgentMessage (1 + firstIdx ["a"] "a") msgC2.sender_id "a"
        msgC2.message_type msgC2.data msgC2.timestamp none).id ≠ msgC2.id) ∧
    (∀ aid2, aid2 ∈ ["a"] → aid2 ≠ "a" →
      1 + firstIdx ["a"] "a" ≠ 1 + firstIdx ["a"] aid2) :=
  C2_broadcast_copy busC2 msgC2 1 10 "a" ["a"] (by decide) (by decide) (by decide)
    (by decide) (by decide)

/-- C6 counterexample: after unregistering agent a, its synchronous handler
override is still present in the message_handlers table, even though the id
is gone from the agent map — unregister_agent never purges handler
overrides, so a reference to the unregistered agent does remain. -/
theorem C6_counterexample :
    lookupA (busC6.unregister_agent "a").message_handlers "a"
      = some [(MessageType.heartbeat, true)] ∧
    "a" ∉ (busC6.unregister_agent "a").agents := by
  decide

/-- C6 (corrected): unregistering a registered agent removes its entry from
the agent map and its mailbox entry and removes the id from every subscriber
list (assuming the lists hold no duplicates, which subscribe guarantees),
but the synchronous handler overrides stored for that id are left behind
unchanged. -/
theorem C6_unregister (bus : MessageBus) (aid : String)
    (hnd : ∀ k l, lookupA bus.subscribers k = some l → l.Nodup)
    (hmem : aid ∈ bus.agents) :
    aid ∉ (bus.unregister_agent aid).agents ∧
    lookupA (bus.unregister_agent aid).message_queues aid = none ∧
    (∀ k l, lookupA (bus.unregister_agent aid).subscribers k = some l → aid ∉ l) ∧
    (bus.unregister_agent aid).message_handlers = bus.message_handlers := by
  have hU : bus.unregister_agent aid
      = { bus with
          agents := bus.agents.filter (fun a => decide (a ≠ aid)),
          message_queues := removeA bus.message_queues aid,
          subscribers := bus.subscribers.map (fun p => (p.1, removeFirst p.2 aid)) } := by
    simp only [MessageBus.unregister_agent, if_pos hmem]
  rw [hU]
  refine ⟨?_, lookupA_removeA_self _ _, ?_, rfl⟩
  · intro hin
    have hin2 : aid ∈ bus.agents.filter (fun a => decide (a ≠ aid)) := hin
    rcases List.mem_filter.mp hin2 with ⟨_, hdec⟩
    exact (of_decide_eq_true hdec) rfl
  · intro k l hl
    have hmap : lookupA (bus.subscribers.map (fun p => (p.1, removeFirst p.2 aid))) k
        = (lookupA bus.subscribers k).map (fun l2 => removeFirst l2 aid) :=
      lookupA_map_snd bus.subscribers (fun l2 => removeFirst l2 aid) k
    rw [hmap] at hl
    cases he : lookupA bus.subscribers k with
    | none => rw [he] at hl; cases hl
    | some l0 =>
        rw [he] at hl
        have hl2 : removeFirst l0 aid = l := Option.some.inj hl
        rw [← hl2]
        exact not_mem_removeFirst (hnd k l0 he)

/-- C6 witness: the corrected statement at the concrete bus whose agent a is
registered, subscribed to heartbeat, and holds a handler override. -/
theorem C6_witness :
    ("a" ∉ (busC6.unregister_agent "a").agents) ∧
    lookupA (busC6.unregister_agent "a").message_queues "a" = none ∧
    (∀ k l, lookupA (busC6.unregister_agent "a").subscribers k = some l → "a" ∉ l) ∧
    (busC6.unregister_agent "a").message_handlers = busC6.message_handlers := by
  refine C6_unregister busC6 "a" ?_ (by decide)
  intro k l h
  rw [show busC6.subscribers = [(MessageType.heartbeat, ["a"])] from rfl] at h
  cases k <;> simp_all [lookupA]
  subst h
  decide

theorem lookupA_sweepMap (now timeout : Nat) (l : List (String × RegistryEntry)) (k : String) :
    lookupA (l.map (fun p => (p.1,
        if staleActive now timeout p.2 then { p.2 with status := "inactive" } else p.2))) k
      = (lookupA l k).map (fun e =>
          if staleActive now timeout e then { e with status := "inactive" } else e) :=
  lookupA_map_snd l
    (fun e => if staleActive now timeout e then { e with status := "inactive" } else e) k

/-- C7 counterexample: after the health sweep marked agent a inactive,
re-registering the same id (register_agent, not update_heartbeat) flips its
status back to active, so update_heartbeat is not the only operation that
transitions a status from inactive back to active. -/
theorem C7_counterexample :
    (lookupA regC7swept.agents "a").map RegistryEntry.status = some "inactive" ∧
    (lookupA (regC7swept.register_agent "a" "t" [] 200).agents "a").map RegistryEntry.status
      = some "active" := by
  decide

/-- C7 (corrected): a sweep flips every stale entry whose status is not yet
inactive to inactive and publishes exactly one broadcast status-change event
per flipped entry (the sent counter grows by the number of flipped entries);
an entry already inactive is preserved verbatim and produces no further
event; immediately re-running the sweep at the same instant changes nothing
at all; a sweep never sets any status to anything but inactive (each entry
is either untouched or flipped); and update_heartbeat restores the entry to
active with a refreshed heartbeat.  However update_heartbeat is only the
only such transition among heartbeat, sweep, and unregister: re-registering
the id also yields an active status, as the counterexample shows. -/
theorem C7_health (r : Registry) (fresh now f2 : Nat) (aid : String) (e : RegistryEntry)
    (he : lookupA r.agents aid = some e) :
    (staleActive now r.heartbeat_timeout e →
       lookupA (r.check_agent_health fresh now).1.agents aid
         = some { e with status := "inactive" }) ∧
    (r.check_agent_health fresh now).1.bus.stats.messages_sent
       = r.bus.stats.messages_sent + staleCount now r.heartbeat_timeout r.agents ∧
    (e.status = "inactive" →
       lookupA (r.check_agent_health fresh now).1.agents aid = some e) ∧
    (∀ aid2 e2, lookupA (r.check_agent_health fresh now).1.agents aid2 = some e2 →
       lookupA r.agents aid2 = some e2 ∨ e2.status = "inactive") ∧
    ((r.check_agent_health fresh now).1.check_agent_health f2 now
       = ((r.check_agent_health fresh now).1, f2)) ∧
    lookupA (r.update_heartbeat aid now).agents aid
       = some { e with status := "active", last_heartbeat := now } := by
  have hag : (r.check_agent_health fresh now).1.agents
      = r.agents.map (fun p => (p.1,
          if staleActive now r.heartbeat_timeout p.2
          then { p.2 with status := "inactive" } else p.2)) :=
    healthSweep_agents now r.heartbeat_timeout r.agents r.bus fresh
  refine ⟨?_, ?_, ?_, ?_, ?_, ?_⟩
  · intro hs
    rw [hag, lookupA_sweepMap, he]
    show some (if staleActive now r.heartbeat_timeout e
        then { e with status := "inactive" } else e) = _
    rw [if_pos hs]
  · exact healthSweep_sent now r.heartbeat_timeout r.agents r.bus fresh
  · intro hstat
    have hns : ¬ staleActive now r.heartbeat_timeout e := fun hc => hc.2 hstat
    rw [hag, lookupA_sweepMap, he]
    show some (if staleActive now r.heartbeat_timeout e
        then { e with status := "inactive" } else e) = _
    rw [if_neg hns]
  · intro aid2 e2 h2
    rw [hag, lookupA_sweepMap] at h2
    cases hl : lookupA r.agents aid2 with
    | none => rw [hl] at h2; cases h2
    | some e0 =>
        rw [hl] at h2
        have h3 : (if staleActive now r.heartbeat_timeout e0
            then { e0 with status := "inactive" } else e0) = e2 := Option.some.inj h2
        by_cases hs0 : staleActive now r.heartbeat_timeout e0
        · right
          rw [← h3, if_pos hs0]
        · left
          rw [← h3, if_neg hs0]
  · have hnof2 : ∀ p ∈ (healthSweep now r.heartbeat_timeout r.bus fresh r.agents).1,
        ¬ staleActive now r.heartbeat_timeout p.2 := by
      rw [healthSweep_agents]
      exact swept_noflip now r.heartbeat_timeout r.agents
    have hsw2 := healthSweep_noflip now r.heartbeat_timeout
      (healthSweep now r.heartbeat_timeout r.bus fresh r.agents).1 hnof2
      (healthSweep now r.heartbeat_timeout r.bus fresh r.agents).2.1 f2
    simp only [Registry.check_agent_health]
    rw [hsw2]
  · have hupd : r.update_heartbeat aid now
        = { r with agents := (setA r.agents aid
            { e with last_heartbeat := now, status := "active" }) } := by
      simp only [Registry.update_heartbeat, he]
    rw [hupd]
    exact lookupA_setA_self _ _ _

/-- C7 witness: the corrected statement at the concrete registry whose agent
was registered at instant 0 and swept at instant 100. -/
theorem C7_witness :
    (staleActive 100 regC7.heartbeat_timeout entC7 →
       lookupA (regC7.check_agent_health 10 100).1.agents "a"
         = some { entC7 with status := "inactive" }) ∧
    (regC7.check_agent_health 10 100).1.bus.stats.messages_sent
       = regC7.bus.stats.messages_sent + staleCount 100 regC7.heartbeat_timeout regC7.agents ∧
    (entC7.status = "inactive" →
       lookupA (regC7.check_agent_health 10 100).1.agents "a" = some entC7) ∧
    (∀ aid2 e2, lookupA (regC7.check_agent_health 10 100).1.agents aid2 = some e2 →
       lookupA regC7.agents aid2 = some e2 ∨ e2.status = "inactive") ∧
    ((regC7.check_agent_health 10 100).1.check_agent_health 20 100
       = ((regC7.check_agent_health 10 100).1, 20)) ∧
    lookupA (regC7.update_heartbeat "a" 100).agents "a"
       = some { entC7 with status := "active", last_heartbeat := 100 } :=
  C7_health regC7 10 100 20 "a" entC7 (by decide)

end NexusModel
